import Mathlib

/-!
# Verification of `triangle_on_sonar_finder` (template.go)

A shallow embedding of the core of `template.go`: the Sobel edge detector
(`sobelEdge`), template construction (`NewTemplateFromImage`) and the
sliding-window normalized cross-correlation search (`FindMatch`).

Modelling conventions:

* Go `float32`/`float64` arithmetic is modelled by exact real arithmetic (`ℝ`);
  the intermediate `float32`/`float64` conversions in the source are therefore
  identities in the model.
* Go conversions from a floating-point value to an integer type (`int(val)`,
  `int16(...)`, `uint(...)`) truncate toward zero; they are modelled by
  `trunc`.  (Go leaves the out-of-range case implementation-dependent;
  theorems whose fidelity depends on such a conversion being in range carry
  the corresponding range hypotheses.)
* Go slice indexing `a[i]` is modelled by `List.getD` with default `0`
  (resp. `[]`); the in-bounds theorem shows the search never reads the
  default on well-formed inputs.
* The external resizer (`github.com/nfnt/resize`) is an opaque collaborator:
  `NewTemplateFromImage` is parametrised by an arbitrary resize function.
-/

namespace TriangleOnSonar

noncomputable section

/-- Truncation toward zero, the semantics of Go conversions from a
floating-point value to an integer type (for in-range values). -/
def trunc (r : ℝ) : ℤ := if 0 ≤ r then ⌊r⌋ else ⌈r⌉

/-- A 2-D grid of samples (`[][]float64` in the source), row-major. -/
abbrev Grid := List (List ℝ)

/-- A Go index read `g[y][x]`; out-of-range reads return `0` in the model
(the in-bounds theorem shows the search only performs in-range reads). -/
def cell (g : Grid) (y x : ℕ) : ℝ := (g.getD y []).getD x 0

/-- `TemplateFromImage` (template.go lines 20–26). -/
structure TemplateFromImage where
  kernel : Grid
  kernelWidth : ℕ
  kernelHeight : ℕ
  sumKernel : ℝ
  originalSize : ℕ × ℕ

/-- `Match` (template.go lines 148–154). -/
structure Match where
  X : ℤ
  Y : ℤ
  Width : ℕ
  Height : ℕ
  Score : ℝ

/-- The index sequence of a Go loop `for i := start; i < bound; i += stride`.
For `stride = 0` the Go loop would diverge whenever `start < bound` (the
claims assume `stride ≥ 1`); the model returns `[]` in that degenerate case. -/
def strideList (stride start bound : ℕ) : List ℕ :=
  if h1 : stride = 0 then []
  else if h2 : bound ≤ start then []
  else start :: strideList stride (start + stride) bound
termination_by bound - start
decreasing_by omega

/-- Sobel horizontal kernel `gx` (template.go lines 174–178), as the entry
function of the `[3][3]int` array. -/
def gxK : ℕ → ℕ → ℤ
  | 0, 0 => -1
  | 0, 1 => 0
  | 0, 2 => 1
  | 1, 0 => -2
  | 1, 1 => 0
  | 1, 2 => 2
  | 2, 0 => -1
  | 2, 1 => 0
  | 2, 2 => 1
  | _, _ => 0

/-- Sobel vertical kernel `gy` (template.go lines 179–183). -/
def gyK : ℕ → ℕ → ℤ
  | 0, 0 => -1
  | 0, 1 => -2
  | 0, 2 => -1
  | 1, 0 => 0
  | 1, 1 => 0
  | 1, 2 => 0
  | 2, 0 => 1
  | 2, 1 => 2
  | 2, 2 => 1
  | _, _ => 0

/-- The accumulated `sx` of template.go lines 186–193:
`sx += int(gx[ky+1][kx+1]) * int(val)` with `val = gray_img[y+ky][x+kx]`,
for `ky, kx` ranging over `-1..1`.  Here `ky, kx` range over `0..2`, so the
neighbour index is `y + ky - 1` (the source only evaluates this at
`y, x ≥ 1`, where the natural subtraction agrees with Go's `int`). -/
def sobelSx (g : Grid) (y x : ℕ) : ℤ :=
  ∑ ky ∈ Finset.range 3, ∑ kx ∈ Finset.range 3,
    gxK ky kx * trunc (cell g (y + ky - 1) (x + kx - 1))

/-- The accumulated `sy` of template.go lines 186–193. -/
def sobelSy (g : Grid) (y x : ℕ) : ℤ :=
  ∑ ky ∈ Finset.range 3, ∑ kx ∈ Finset.range 3,
    gyK ky kx * trunc (cell g (y + ky - 1) (x + kx - 1))

/-- The gradient magnitude `math.Sqrt(float64(sx*sx + sy*sy))` of
template.go line 194. -/
def sobelMag (g : Grid) (y x : ℕ) : ℝ :=
  Real.sqrt ((sobelSx g y x * sobelSx g y x + sobelSy g y x * sobelSy g y x : ℤ) : ℝ)

/-- `sobelEdge` (template.go lines 168–201).  The output grid is built from
an all-zero `height × width` grid by writing, for every interior position
(`1 ≤ y < height-1`, `1 ≤ x < width-1`), the gradient magnitude, zeroed when
`int16(edge[y][x]) < threshold` (line 195). -/
def sobelEdge (g : Grid) (width height : ℕ) (threshold : ℤ) : Grid :=
  (List.range height).map fun y =>
    (List.range width).map fun x =>
      if 1 ≤ y ∧ y + 1 < height ∧ 1 ≤ x ∧ x + 1 < width then
        if trunc (sobelMag g y x) < threshold then 0 else sobelMag g y x
      else 0

/-- The abstract input image of the core (spec §6): integer dimensions plus
random access to the grayscale value of each pixel.  `gray x y` models
`color.GrayModel.Convert(img.At(x, y)).(color.Gray).Y` (template.go line 53),
a `uint8` value, hence a natural number (bounded by 255 for real images). -/
structure GoImage where
  width : ℕ
  height : ℕ
  gray : ℕ → ℕ → ℕ

/-- The grayscale matrix of template.go lines 48–56. -/
def grayGrid (img : GoImage) : Grid :=
  (List.range img.height).map fun y =>
    (List.range img.width).map fun x => (img.gray x y : ℝ)

/-- `newWidth := uint(float64(originalSize.X) * scale)` (template.go line 31):
the product is truncated toward zero, not rounded. -/
def targetWidth (w : ℕ) (scale : ℝ) : ℕ := (trunc ((w : ℝ) * scale)).toNat

/-- What §4.1 of the spec says the resize target width is: Modelled from the
spec words "scale the image proportionally so its width becomes
`round(originalWidth * scale)`" — for comparison with `targetWidth`. -/
def specTargetWidth (w : ℕ) (scale : ℝ) : ℤ := round ((w : ℝ) * scale)

/-- `NewTemplateFromImage` (template.go lines 29–93), parametrised by the
external resizer (`resizeImage`, template.go lines 163–165, a thin wrapper
around `resize.Resize`).  Returns `none` exactly on the `DimensionMismatch`
error path of lines 36–38. -/
def NewTemplateFromImage (resizeImage : GoImage → ℕ → GoImage) (img : GoImage)
    (scale : ℝ) : Option TemplateFromImage :=
  let originalSize := (img.width, img.height)
  let newWidth := targetWidth img.width scale
  let resized := resizeImage img newWidth
  if resized.width ≠ newWidth then none
  else
    let width := resized.width
    let height := resized.height
    let edgeKernel := sobelEdge (grayGrid resized) width height 50
    let kernelSum := ∑ y ∈ Finset.range height, ∑ x ∈ Finset.range width,
      cell edgeKernel y x
    let kernelMean := kernelSum / ((height * width : ℕ) : ℝ)
    let centered := (List.range height).map fun y =>
      (List.range width).map fun x => cell edgeKernel y x - kernelMean
    some
      { kernel := centered
        kernelWidth := width
        kernelHeight := height
        sumKernel := ∑ y ∈ Finset.range height, ∑ x ∈ Finset.range width,
          cell centered y x * cell centered y x
        originalSize := originalSize }

/-- `cropSum` at window position `(i, j)` (template.go lines 108–113). -/
def cropSumAt (t : TemplateFromImage) (image : Grid) (i j : ℕ) : ℝ :=
  ∑ y ∈ Finset.range t.kernelHeight, ∑ x ∈ Finset.range t.kernelWidth,
    cell image (i + y) (j + x)

/-- `cropMean` (template.go line 114). -/
def cropMeanAt (t : TemplateFromImage) (image : Grid) (i j : ℕ) : ℝ :=
  cropSumAt t image i j / ((t.kernelHeight * t.kernelWidth : ℕ) : ℝ)

/-- `sumProduct` (template.go lines 116–125). -/
def sumProductAt (t : TemplateFromImage) (image : Grid) (i j : ℕ) : ℝ :=
  ∑ y ∈ Finset.range t.kernelHeight, ∑ x ∈ Finset.range t.kernelWidth,
    (cell image (i + y) (j + x) - cropMeanAt t image i j) * cell t.kernel y x

/-- `sumCropSquared` (template.go lines 117–125). -/
def sumCropSquaredAt (t : TemplateFromImage) (image : Grid) (i j : ℕ) : ℝ :=
  ∑ y ∈ Finset.range t.kernelHeight, ∑ x ∈ Finset.range t.kernelWidth,
    (cell image (i + y) (j + x) - cropMeanAt t image i j) *
      (cell image (i + y) (j + x) - cropMeanAt t image i j)

/-- `denominator := float32(math.Sqrt(float64(float32(sumCropSquared) *
t.sumKernel)))` (template.go line 128). -/
def denominatorAt (t : TemplateFromImage) (image : Grid) (i j : ℕ) : ℝ :=
  Real.sqrt (sumCropSquaredAt t image i j * t.sumKernel)

/-- `corr := float32(sumProduct) / denominator` (template.go line 130). -/
def corrAt (t : TemplateFromImage) (image : Grid) (i j : ℕ) : ℝ :=
  sumProductAt t image i j / denominatorAt t image i j

/-- The `Match` record appended for window position `(i, j)` (template.go
lines 132–138): `X: int(float64(j) * 1 / scale)`, `Y: int(float64(i) * 1 /
scale)`, width/height from `originalSize`, score `corr`. -/
def emittedMatch (t : TemplateFromImage) (image : Grid) (i j : ℕ)
    (scale : ℝ) : Match :=
  { X := trunc ((j : ℝ) * 1 / scale)
    Y := trunc ((i : ℝ) * 1 / scale)
    Width := t.originalSize.1
    Height := t.originalSize.2
    Score := corrAt t image i j }

/-- The matches appended at window position `(i, j)` (template.go
lines 128–140): nothing when `denominator ≤ 0` or `corr ≤ threshold`,
otherwise the single `Match` of lines 132–138. -/
def matchesAt (t : TemplateFromImage) (image : Grid) (i j : ℕ)
    (threshold scale : ℝ) : List Match :=
  if 0 < denominatorAt t image i j then
    if threshold < corrAt t image i j then [emittedMatch t image i j scale]
    else []
  else []

/-- `FindMatch` (template.go lines 96–145).  Note the loop bounds of
lines 105–106 are the *exclusive* `i < height - kernelHeight`,
`j < width - kernelWidth` of the source (Go `int` subtraction; for
`kernelHeight > height` the bound is negative and the loop body never runs,
which natural subtraction reproduces). -/
def FindMatch (t : TemplateFromImage) (image : Grid) (stride : ℕ)
    (threshold scale : ℝ) : List Match :=
  if image.length = 0 then []
  else
    (strideList stride 0 (image.length - t.kernelHeight)).flatMap fun i =>
      (strideList stride 0 ((image.headD []).length - t.kernelWidth)).flatMap fun j =>
        matchesAt t image i j threshold scale

/-- The window top-left positions `(i, j)` evaluated by the loops of
template.go lines 105–106, in raster order. -/
def testedPositions (t : TemplateFromImage) (image : Grid) (stride : ℕ) :
    List (ℕ × ℕ) :=
  if image.length = 0 then []
  else
    (strideList stride 0 (image.length - t.kernelHeight)).flatMap fun i =>
      (strideList stride 0 ((image.headD []).length - t.kernelWidth)).map fun j =>
        (i, j)

/-! ## Spec-side comparison definitions for the Sobel contract -/

/-- Cast an integer-valued grid to the real-valued `Grid` (grayscale grids
produced by template.go line 53 hold `uint8` values, hence are
integer-valued). -/
def castGrid (gz : List (List ℤ)) : Grid :=
  gz.map fun row => row.map (Int.cast : ℤ → ℝ)

/-- The integer entry `gz[y][x]` (0 outside the grid). -/
def zcell (gz : List (List ℤ)) (y x : ℕ) : ℤ := (gz.getD y []).getD x 0

/-- Modelled from the spec: the horizontal response of the standard Sobel
kernel `Gx = [[-1,0,1],[-2,0,2],[-1,0,1]]` at an interior pixel, written out
term by term, for comparison with the code's `sobelSx`. -/
def specSx (gz : List (List ℤ)) (y x : ℕ) : ℤ :=
  -zcell gz (y - 1) (x - 1) + zcell gz (y - 1) (x + 1)
    - 2 * zcell gz y (x - 1) + 2 * zcell gz y (x + 1)
    - zcell gz (y + 1) (x - 1) + zcell gz (y + 1) (x + 1)

/-- Modelled from the spec: the vertical response of the standard Sobel
kernel `Gy = [[-1,-2,-1],[0,0,0],[1,2,1]]` at an interior pixel. -/
def specSy (gz : List (List ℤ)) (y x : ℕ) : ℤ :=
  -zcell gz (y - 1) (x - 1) - 2 * zcell gz (y - 1) x - zcell gz (y - 1) (x + 1)
    + zcell gz (y + 1) (x - 1) + 2 * zcell gz (y + 1) x + zcell gz (y + 1) (x + 1)

/-! ## Fixtures for witnesses and counterexamples -/

/-- Fixture: the identity resizer. -/
def idResize : GoImage → ℕ → GoImage := fun img _ => img

/-- Fixture: a 1×1 all-black image. -/
def imgOne : GoImage := ⟨1, 1, fun _ _ => 0⟩

/-- Fixture: the template that `NewTemplateFromImage idResize imgOne 1`
produces. -/
def tUnit : TemplateFromImage := ⟨[[0]], 1, 1, 0, (1, 1)⟩

/-- Fixture: a 10×10 all-zero grid. -/
def gridTen : Grid := List.replicate 10 (List.replicate 10 (0 : ℝ))

/-- Fixture: a template whose kernel is the 10×10 zero grid. -/
def tTen : TemplateFromImage := ⟨gridTen, 10, 10, 0, (10, 10)⟩

/-- Fixture: a 1×2 template kernel `[1, -1]` with `sumKernel = 2` and an
original size of 5×7. -/
def tPair : TemplateFromImage := ⟨[[1, -1]], 2, 1, 2, (5, 7)⟩

/-- Fixture: a 2×3 scene whose top-left 1×2 window matches `tPair` exactly. -/
def scenePair : Grid := [[1, -1, 0], [0, 0, 0]]

/-- Fixture: a 2×2 all-zero template kernel. -/
def tTwo : TemplateFromImage := ⟨[[0, 0], [0, 0]], 2, 2, 0, (2, 2)⟩

/-- Fixture: a 3×3 all-zero scene. -/
def sceneThree : Grid := [[0, 0, 0], [0, 0, 0], [0, 0, 0]]

/-- Fixture: a 3×3 integer grayscale grid with a single bright centre
pixel. -/
def gzCentre : List (List ℤ) := [[0, 0, 0], [0, 255, 0], [0, 0, 0]]

/-! ## Basic lemmas about the loop model -/

/-- A Go `for` loop whose bound is already reached runs no iterations. -/
lemma strideList_nil (s i b : ℕ) (h : b ≤ i) : strideList s i b = [] := by
  rw [strideList]
  simp [h]

/-- Auxiliary form of `lt_of_mem_strideList`, by induction on a bound for
the number of remaining iterations. -/
lemma lt_of_mem_strideList_aux (s : ℕ) :
    ∀ n i b k, b - i ≤ n → k ∈ strideList s i b → k < b := by
  intro n
  induction n with
  | zero =>
    intro i b k hn h
    rw [strideList] at h
    split at h
    · simp at h
    · split at h
      · simp at h
      · next hb => omega
  | succ n ih =>
    intro i b k hn h
    rw [strideList] at h
    split at h
    · simp at h
    · next hs =>
      split at h
      · simp at h
      · next hb =>
        simp only [List.mem_cons] at h
        rcases h with rfl | h
        · omega
        · exact ih (i + s) b k (by omega) h

/-- Every index visited by the loop is below the loop bound. -/
lemma lt_of_mem_strideList {s i b k : ℕ} (h : k ∈ strideList s i b) : k < b :=
  lt_of_mem_strideList_aux s (b - i) i b k le_rfl h

/-- A cell of a grid built by a double `List.range` map. -/
lemma cell_build {f : ℕ → ℕ → ℝ} {h w y x : ℕ} (hy : y < h) (hx : x < w) :
    cell ((List.range h).map fun y => (List.range w).map fun x => f y x) y x =
      f y x := by
  unfold cell
  rw [List.getD_eq_getElem ((List.range h).map fun y => (List.range w).map fun x => f y x)
    [] (by simpa using hy)]
  rw [List.getElem_map, List.getElem_range]
  rw [List.getD_eq_getElem _ _ (by simpa using hx)]
  rw [List.getElem_map, List.getElem_range]

/-- Nested loops over `(i, j)` can be flattened through the tested-position
list. -/
lemma flatMap_pair_eq {α β γ : Type} (xs : List α) (ys : List β)
    (f : α → β → List γ) :
    (xs.flatMap fun i => ys.flatMap fun j => f i j) =
      (xs.flatMap fun i => ys.map fun j => (i, j)).flatMap fun p => f p.1 p.2 := by
  induction xs with
  | nil => simp
  | cons a l ih => simp [List.flatMap_append, List.flatMap_map, ih]

/-- `FindMatch` is the concatenation, over the tested window positions in
raster order, of the matches each position contributes. -/
lemma FindMatch_eq (t : TemplateFromImage) (image : Grid) (stride : ℕ)
    (threshold scale : ℝ) :
    FindMatch t image stride threshold scale =
      (testedPositions t image stride).flatMap fun p =>
        matchesAt t image p.1 p.2 threshold scale := by
  unfold FindMatch testedPositions
  split
  · rfl
  · exact flatMap_pair_eq _ _ _

/-- The components of a tested window position are loop indices of the two
loops of template.go lines 105–106. -/
lemma mem_testedPositions {t : TemplateFromImage} {image : Grid} {stride : ℕ}
    {p : ℕ × ℕ} (hp : p ∈ testedPositions t image stride) :
    p.1 ∈ strideList stride 0 (image.length - t.kernelHeight) ∧
      p.2 ∈ strideList stride 0 ((image.headD []).length - t.kernelWidth) := by
  unfold testedPositions at hp
  split at hp
  · simp at hp
  · simp only [List.mem_flatMap, List.mem_map] at hp
    obtain ⟨i, hi, j, hj, rfl⟩ := hp
    exact ⟨hi, hj⟩

/-- The length of a grid built by a double `List.range` map. -/
lemma build_length (f : ℕ → ℕ → ℝ) (h w : ℕ) :
    ((List.range h).map fun y => (List.range w).map fun x => f y x).length = h := by
  simp

/-- The row lengths of a grid built by a double `List.range` map. -/
lemma build_row_length (f : ℕ → ℕ → ℝ) (h w y : ℕ) (hy : y < h) :
    (((List.range h).map fun y => (List.range w).map fun x => f y x).getD y
        []).length = w := by
  rw [List.getD_eq_getElem _ _ (by simpa using hy), List.getElem_map,
    List.getElem_range]
  simp

/-- In exact arithmetic, subtracting the mean of a grid from each of its
cells yields a grid whose cells sum to zero. -/
lemma centered_zero_sum (E : Grid) (H W : ℕ) (C : Grid) (M : ℝ)
    (hM : M = (∑ y ∈ Finset.range H, ∑ x ∈ Finset.range W, cell E y x) /
      ((H * W : ℕ) : ℝ))
    (hC : C = (List.range H).map fun y =>
      (List.range W).map fun x => cell E y x - M) :
    (∑ y ∈ Finset.range C.length,
        ∑ x ∈ Finset.range (C.getD y []).length, cell C y x) = 0 := by
  have hlen : C.length = H := by rw [hC]; exact build_length _ _ _
  have hrow : ∀ y < H, (C.getD y []).length = W := by
    intro y hy
    rw [hC]
    exact build_row_length _ _ _ y hy
  have hcell : ∀ y < H, ∀ x < W, cell C y x = cell E y x - M := by
    intro y hy x hx
    rw [hC]
    exact cell_build hy hx
  have step1 : (∑ y ∈ Finset.range C.length,
      ∑ x ∈ Finset.range (C.getD y []).length, cell C y x) =
        ∑ y ∈ Finset.range H, ∑ x ∈ Finset.range W, (cell E y x - M) := by
    rw [hlen]
    refine Finset.sum_congr rfl fun y hy => ?_
    rw [hrow y (Finset.mem_range.mp hy)]
    exact Finset.sum_congr rfl fun x hx =>
      hcell y (Finset.mem_range.mp hy) x (Finset.mem_range.mp hx)
  have step2 : (∑ y ∈ Finset.range H, ∑ x ∈ Finset.range W, (cell E y x - M)) =
      (∑ y ∈ Finset.range H, ∑ x ∈ Finset.range W, cell E y x) -
        (H : ℝ) * ((W : ℝ) * M) := by
    simp only [Finset.sum_sub_distrib, Finset.sum_const, Finset.card_range,
      nsmul_eq_mul]
  rw [step1, step2, hM]
  rcases Nat.eq_zero_or_pos (H * W) with h0 | hp
  · rcases Nat.mul_eq_zero.mp h0 with h | h <;> simp [h]
  · have hne : ((H * W : ℕ) : ℝ) ≠ 0 := Nat.cast_ne_zero.mpr (by omega)
    push_cast at hne ⊢
    field_simp
    ring

/-- Rewriting the double sum over a built grid's own dimensions, with
squares written as `^ 2`. -/
lemma build_sq_sum (C : Grid) (H W : ℕ) (hlen : C.length = H)
    (hrow : ∀ y < H, (C.getD y []).length = W) :
    (∑ y ∈ Finset.range H, ∑ x ∈ Finset.range W, cell C y x * cell C y x) =
      ∑ y ∈ Finset.range C.length,
        ∑ x ∈ Finset.range (C.getD y []).length, cell C y x ^ 2 := by
  rw [hlen]
  refine Finset.sum_congr rfl fun y hy => ?_
  rw [hrow y (Finset.mem_range.mp hy)]
  exact Finset.sum_congr rfl fun x _ => (pow_two (cell C y x)).symm

/-- Go integer conversion of a value that is already an integer is exact. -/
lemma trunc_intCast (z : ℤ) : trunc ((z : ℝ)) = z := by
  unfold trunc
  split
  · exact Int.floor_intCast z
  · exact Int.ceil_intCast z

/-- On non-negative reals, truncation toward zero is the floor. -/
lemma trunc_of_nonneg {r : ℝ} (h : 0 ≤ r) : trunc r = ⌊r⌋ := if_pos h

/-- `getD` through an entrywise integer cast. -/
lemma getD_map_cast (l : List ℤ) (n : ℕ) :
    (l.map (Int.cast : ℤ → ℝ)).getD n 0 = ((l.getD n 0 : ℤ) : ℝ) := by
  induction l generalizing n with
  | nil => simp
  | cons a l ih =>
    cases n with
    | zero => simp
    | succ n => simpa using ih n

/-- `getD` through a rowwise integer cast. -/
lemma getD_map_row (gz : List (List ℤ)) (n : ℕ) :
    (gz.map fun row => row.map (Int.cast : ℤ → ℝ)).getD n [] =
      (gz.getD n []).map (Int.cast : ℤ → ℝ) := by
  induction gz generalizing n with
  | nil => simp
  | cons r l ih =>
    cases n with
    | zero => simp
    | succ n => simpa using ih n

/-- Reading a cast integer grid through `cell` gives the cast of the
integer entry. -/
lemma cell_castGrid (gz : List (List ℤ)) (a b : ℕ) :
    cell (castGrid gz) a b = (zcell gz a b : ℝ) := by
  unfold cell castGrid zcell
  rw [getD_map_row, getD_map_cast]

/-- On an integer grid, the code's accumulated `sx` is exactly the spec's
written-out horizontal Sobel response. -/
lemma sobelSx_castGrid (gz : List (List ℤ)) (y x : ℕ) (hy : 1 ≤ y)
    (hx : 1 ≤ x) :
    sobelSx (castGrid gz) y x = specSx gz y x := by
  have e1 : y + 2 - 1 = y + 1 := by omega
  have e2 : x + 2 - 1 = x + 1 := by omega
  have e3 : y + 1 - 1 = y := by omega
  have e4 : x + 1 - 1 = x := by omega
  have e5 : y + 0 - 1 = y - 1 := by omega
  have e6 : x + 0 - 1 = x - 1 := by omega
  unfold sobelSx specSx
  simp only [Finset.sum_range_succ, Finset.sum_range_zero, cell_castGrid,
    trunc_intCast, e1, e2, e3, e4, e5, e6, gxK]
  ring

/-- On an integer grid, the code's accumulated `sy` is exactly the spec's
written-out vertical Sobel response. -/
lemma sobelSy_castGrid (gz : List (List ℤ)) (y x : ℕ) (hy : 1 ≤ y)
    (hx : 1 ≤ x) :
    sobelSy (castGrid gz) y x = specSy gz y x := by
  have e1 : y + 2 - 1 = y + 1 := by omega
  have e2 : x + 2 - 1 = x + 1 := by omega
  have e3 : y + 1 - 1 = y := by omega
  have e4 : x + 1 - 1 = x := by omega
  have e5 : y + 0 - 1 = y - 1 := by omega
  have e6 : x + 0 - 1 = x - 1 := by omega
  unfold sobelSy specSy
  simp only [Finset.sum_range_succ, Finset.sum_range_zero, cell_castGrid,
    trunc_intCast, e1, e2, e3, e4, e5, e6, gyK]
  ring

/-! ## Claims -/

/-- C1: contrary to the claim (which, following the spec's inclusive bounds
`0 ≤ i ≤ sceneHeight - kernelHeight`, predicts that exactly the window
position (0,0) is tested), a 10×10 scene searched with a 10×10 kernel at
stride 1 has *no* tested window positions: the loop bounds of template.go
lines 105–106 are exclusive (`i < height - kernelHeight`). -/
theorem C1_no_position_tested : testedPositions tTen gridTen 1 = [] := by
  simp [testedPositions, tTen, gridTen, strideList_nil]

/-- Helper: a successfully constructed template has as many kernel rows as
its `kernelHeight` field. -/
lemma kernel_length_of_new {resizeImage : GoImage → ℕ → GoImage} {img : GoImage}
    {scale : ℝ} {t : TemplateFromImage}
    (h : NewTemplateFromImage resizeImage img scale = some t) :
    t.kernel.length = t.kernelHeight := by
  unfold NewTemplateFromImage at h
  simp only [] at h
  split at h
  · exact absurd h (by simp)
  · simp only [Option.some.injEq] at h
    subst h
    simp

/-- Helper: a successfully constructed template stores the input image's
pre-resize dimensions in `originalSize` (template.go line 30). -/
lemma originalSize_of_new {resizeImage : GoImage → ℕ → GoImage} {img : GoImage}
    {scale : ℝ} {t : TemplateFromImage}
    (h : NewTemplateFromImage resizeImage img scale = some t) :
    t.originalSize = (img.width, img.height) := by
  unfold NewTemplateFromImage at h
  simp only [] at h
  split at h
  · exact absurd h (by simp)
  · simp only [Option.some.injEq] at h
    subst h
    rfl

/-- C2: contrary to the claim (self-match at (0,0) with score > 0.999),
searching a scene equal to the template's own preprocessed kernel grid finds
nothing at any threshold: the exclusive loop bound `height - kernelHeight`
of template.go line 105 is 0 there, so no window position is evaluated. -/
theorem C2_self_search_empty (resizeImage : GoImage → ℕ → GoImage)
    (img : GoImage) (threshold scale : ℝ) (t : TemplateFromImage)
    (h : NewTemplateFromImage resizeImage img 1 = some t) :
    FindMatch t t.kernel 1 threshold scale = [] := by
  have hk := kernel_length_of_new h
  unfold FindMatch
  split
  · rfl
  · rw [hk, Nat.sub_self, strideList_nil 1 0 0 le_rfl]
    rfl

/-- Helper (shared by several witnesses): the template construction on the
1×1 black image with the identity resizer succeeds and yields `tUnit`. -/
lemma construct_unit : NewTemplateFromImage idResize imgOne 1 = some tUnit := by
  have hr : List.range 1 = [0] := rfl
  unfold NewTemplateFromImage idResize imgOne targetWidth trunc tUnit
  norm_num
  unfold grayGrid sobelEdge
  norm_num [hr, Finset.sum_range_one, cell]

/-- Witness for C2: a concrete successful construction whose self-search is
empty. -/
theorem C2_self_search_empty_witness :
    NewTemplateFromImage idResize imgOne 1 = some tUnit ∧
      FindMatch tUnit tUnit.kernel 1 (1 / 2) 1 = [] :=
  ⟨construct_unit,
    C2_self_search_empty idResize imgOne (1 / 2) 1 tUnit construct_unit⟩

/-- C3 counterexample: for a 3-pixel-wide image at scale 1/2, the code's
resize target width is the truncated value 1 (`uint(float64(3) * 0.5)`),
not the claimed `round(3 * 0.5) = 2`. -/
theorem C3_target_width_counterexample :
    (targetWidth 3 (1 / 2) : ℤ) ≠ specTargetWidth 3 (1 / 2) := by
  have h1 : targetWidth 3 (1 / 2) = 1 := by
    have h3 : ⌊((3 : ℕ) : ℝ) * (1 / 2)⌋ = 1 := by
      rw [Int.floor_eq_iff]
      norm_num
    unfold targetWidth trunc
    rw [if_pos (by norm_num), h3]
    rfl
  have h2 : specTargetWidth 3 (1 / 2) = 2 := by
    unfold specTargetWidth
    rw [round_eq]
    have h4 : ((3 : ℕ) : ℝ) * (1 / 2) + 1 / 2 = ((2 : ℤ) : ℝ) := by norm_num
    rw [h4]
    exact Int.floor_intCast 2
  rw [h1, h2]
  decide

/-- C3 (amended): the resize target width is the truncation of
`originalWidth * scale` toward zero (`targetWidth`, template.go line 31),
not its rounding; template construction fails — produces no template — if
and only if the resized image's width differs from that truncated target
(template.go lines 36–38). -/
theorem C3_dimension_mismatch_iff (resizeImage : GoImage → ℕ → GoImage)
    (img : GoImage) (scale : ℝ) :
    NewTemplateFromImage resizeImage img scale = none ↔
      (resizeImage img (targetWidth img.width scale)).width ≠
        targetWidth img.width scale := by
  unfold NewTemplateFromImage
  simp only []
  split
  · simp_all
  · simp_all

/-- C4: the match search on a scene grid with zero rows returns the empty
match sequence (template.go lines 97–100); the model has no other outcome,
mirroring that no error is raised. -/
theorem C4_empty_scene (t : TemplateFromImage) (stride : ℕ)
    (threshold scale : ℝ) :
    FindMatch t [] stride threshold scale = [] := by
  simp [FindMatch]

/-- C5: threshold monotonicity — with template, scene, stride and scale
fixed, every match reported at the larger threshold is also reported at the
smaller one. -/
theorem C5_threshold_monotone (t : TemplateFromImage) (image : Grid)
    (stride : ℕ) (scale θ1 θ2 : ℝ) (h : θ1 < θ2) :
    FindMatch t image stride θ2 scale ⊆ FindMatch t image stride θ1 scale := by
  intro m hm
  rw [FindMatch_eq] at hm ⊢
  simp only [List.mem_flatMap] at hm ⊢
  obtain ⟨p, hp, hmp⟩ := hm
  refine ⟨p, hp, ?_⟩
  unfold matchesAt at hmp ⊢
  split at hmp
  · split at hmp
    · next hden hcorr =>
      rw [if_pos hden, if_pos (lt_trans h hcorr)]
      exact hmp
    · simp at hmp
  · simp at hmp

/-- Witness for C5 at a concrete instance (thresholds 0 < 1). -/
theorem C5_threshold_monotone_witness :
    (0 : ℝ) < 1 ∧ FindMatch tUnit [] 1 1 1 ⊆ FindMatch tUnit [] 1 0 1 :=
  ⟨zero_lt_one, C5_threshold_monotone tUnit [] 1 1 0 1 zero_lt_one⟩

/-- C6: degenerate-window safety — the search output is exactly the
concatenation over tested positions in which every position whose
correlation denominator is zero contributes nothing (the guard of
template.go line 129 skips it), regardless of the threshold. -/
theorem C6_zero_denominator_skip (t : TemplateFromImage) (image : Grid)
    (stride : ℕ) (threshold scale : ℝ) :
    FindMatch t image stride threshold scale =
      (testedPositions t image stride).flatMap fun p =>
        if denominatorAt t image p.1 p.2 = 0 then []
        else matchesAt t image p.1 p.2 threshold scale := by
  rw [FindMatch_eq]
  congr 1
  funext p
  split
  · next hzero =>
    unfold matchesAt
    rw [hzero]
    simp
  · rfl

/-- C8: a successfully constructed template stores in `sumKernel` exactly
the sum, over all cells of its stored (mean-centered) kernel grid, of the
squared cell value; in the exact-arithmetic model the stored grid is indeed
mean-centered (its cells sum to zero).  `sumKernel` is a field fixed at
construction (template.go lines 79–92) and `FindMatch` only ever reads the
field (line 128), never recomputing it. -/
theorem C8_sum_kernel_squared (resizeImage : GoImage → ℕ → GoImage)
    (img : GoImage) (scale : ℝ) (t : TemplateFromImage)
    (h : NewTemplateFromImage resizeImage img scale = some t) :
    (∑ y ∈ Finset.range t.kernel.length,
        ∑ x ∈ Finset.range (t.kernel.getD y []).length, cell t.kernel y x) = 0 ∧
      t.sumKernel =
        ∑ y ∈ Finset.range t.kernel.length,
          ∑ x ∈ Finset.range (t.kernel.getD y []).length,
            cell t.kernel y x ^ 2 := by
  unfold NewTemplateFromImage at h
  simp only [] at h
  split at h
  · exact absurd h (by simp)
  · simp only [Option.some.injEq] at h
    subst h
    dsimp only
    constructor
    · exact centered_zero_sum _ _ _ _ _ rfl rfl
    · exact build_sq_sum _ _ _ (build_length _ _ _)
        (fun y hy => build_row_length _ _ _ y hy)

/-- Witness for C8: the concrete 1×1 construction. -/
theorem C8_sum_kernel_squared_witness :
    NewTemplateFromImage idResize imgOne 1 = some tUnit ∧
      ((∑ y ∈ Finset.range tUnit.kernel.length,
          ∑ x ∈ Finset.range (tUnit.kernel.getD y []).length,
            cell tUnit.kernel y x) = 0 ∧
        tUnit.sumKernel =
          ∑ y ∈ Finset.range tUnit.kernel.length,
            ∑ x ∈ Finset.range (tUnit.kernel.getD y []).length,
              cell tUnit.kernel y x ^ 2) :=
  ⟨construct_unit, C8_sum_kernel_squared idResize imgOne 1 tUnit construct_unit⟩

/-- C7: the Sobel contract on a rectangular grayscale grid (an
integer-valued grid of intensities in [0, 255], here given as the cast of
an integer grid `gz`): the output has the input's dimensions, its border
ring of width 1 is zero, and each interior cell carries the gradient
magnitude `sqrt(sx² + sy²)` for the standard Gx/Gy convolutions, zeroed
when the magnitude is below the threshold.  (For an integer threshold,
Go's comparison `int16(magnitude) < threshold` of line 195 agrees with the
spec's comparison of the real magnitude; the [0, 255] bound keeps the
`int16` conversion in its defined range.) -/
theorem C7_sobel_contract (gz : List (List ℤ)) (w : ℕ) (threshold : ℤ)
    (hrect : ∀ row ∈ gz, row.length = w)
    (hgray : ∀ row ∈ gz, ∀ v ∈ row, 0 ≤ v ∧ v ≤ 255) :
    ((sobelEdge (castGrid gz) w gz.length threshold).length = gz.length ∧
      ∀ y < gz.length,
        ((sobelEdge (castGrid gz) w gz.length threshold).getD y []).length = w) ∧
      (∀ y < gz.length, ∀ x < w,
        y = 0 ∨ y + 1 = gz.length ∨ x = 0 ∨ x + 1 = w →
          cell (sobelEdge (castGrid gz) w gz.length threshold) y x = 0) ∧
      ∀ y x : ℕ, 1 ≤ y → y + 1 < gz.length → 1 ≤ x → x + 1 < w →
        cell (sobelEdge (castGrid gz) w gz.length threshold) y x =
          if Real.sqrt ((specSx gz y x ^ 2 + specSy gz y x ^ 2 : ℤ) : ℝ) <
              (threshold : ℝ) then 0
          else Real.sqrt ((specSx gz y x ^ 2 + specSy gz y x ^ 2 : ℤ) : ℝ) := by
  refine ⟨⟨build_length _ _ _, fun y hy => build_row_length _ _ _ y hy⟩,
    fun y hy x hx hb => ?_, fun y x hy1 hy2 hx1 hx2 => ?_⟩
  · unfold sobelEdge
    rw [cell_build hy hx, if_neg (by omega)]
  · have hmag : sobelMag (castGrid gz) y x =
        Real.sqrt ((specSx gz y x ^ 2 + specSy gz y x ^ 2 : ℤ) : ℝ) := by
      unfold sobelMag
      rw [sobelSx_castGrid gz y x hy1 hx1, sobelSy_castGrid gz y x hy1 hx1]
      norm_num [pow_two]
    unfold sobelEdge
    rw [cell_build (by omega) (by omega), if_pos ⟨hy1, hy2, hx1, hx2⟩]
    rw [hmag] at *
    simp only [trunc_of_nonneg (Real.sqrt_nonneg _), Int.floor_lt]

/-- Witness for C7: the 3×3 single-bright-pixel grayscale grid. -/
theorem C7_sobel_contract_witness :
    ((sobelEdge (castGrid gzCentre) 3 gzCentre.length 50).length =
        gzCentre.length ∧
      ∀ y < gzCentre.length,
        ((sobelEdge (castGrid gzCentre) 3 gzCentre.length 50).getD y
          []).length = 3) ∧
      (∀ y < gzCentre.length, ∀ x < 3,
        y = 0 ∨ y + 1 = gzCentre.length ∨ x = 0 ∨ x + 1 = 3 →
          cell (sobelEdge (castGrid gzCentre) 3 gzCentre.length 50) y x = 0) ∧
      ∀ y x : ℕ, 1 ≤ y → y + 1 < gzCentre.length → 1 ≤ x → x + 1 < 3 →
        cell (sobelEdge (castGrid gzCentre) 3 gzCentre.length 50) y x =
          if Real.sqrt ((specSx gzCentre y x ^ 2 + specSy gzCentre y x ^ 2 :
              ℤ) : ℝ) < ((50 : ℤ) : ℝ) then 0
          else Real.sqrt ((specSx gzCentre y x ^ 2 + specSy gzCentre y x ^ 2 :
              ℤ) : ℝ) :=
  C7_sobel_contract gzCentre 3 50 (by decide) (by decide)

/-- C9: every emitted match arises from a tested window position `(i, j)`
whose denominator is positive and whose correlation exceeds the threshold,
and its fields are exactly those of template.go lines 132–138:
`X = trunc(j / scale)`, `Y = trunc(i / scale)`, width and height from the
template's `originalSize`, and score the computed correlation
(`emittedMatch`). -/
theorem C9_match_fields (t : TemplateFromImage) (image : Grid) (stride : ℕ)
    (threshold scale : ℝ) (m : Match)
    (hm : m ∈ FindMatch t image stride threshold scale) :
    ∃ i j, (i, j) ∈ testedPositions t image stride ∧
      0 < denominatorAt t image i j ∧ threshold < corrAt t image i j ∧
      m = emittedMatch t image i j scale := by
  rw [FindMatch_eq] at hm
  simp only [List.mem_flatMap] at hm
  obtain ⟨p, hp, hmp⟩ := hm
  refine ⟨p.1, p.2, hp, ?_⟩
  unfold matchesAt at hmp
  split at hmp
  · split at hmp
    · next hden hcorr =>
      simp only [List.mem_singleton] at hmp
      exact ⟨hden, hcorr, hmp⟩
    · simp at hmp
  · simp at hmp

/-- Square root of four. -/
lemma sqrt_four : Real.sqrt 4 = 2 := by
  rw [show (4 : ℝ) = 2 ^ 2 by norm_num]
  exact Real.sqrt_sq (by norm_num)

/-- The crop sum of the matching window of the `tPair`/`scenePair`
fixture. -/
lemma pair_cropSum : cropSumAt tPair scenePair 0 0 = 0 := by
  have c00 : cell scenePair 0 0 = 1 := rfl
  have c01 : cell scenePair 0 1 = -1 := rfl
  show (∑ y ∈ Finset.range 1, ∑ x ∈ Finset.range 2,
    cell scenePair (0 + y) (0 + x)) = 0
  simp only [Finset.sum_range_one, Finset.sum_range_succ,
    Finset.sum_range_zero, Nat.add_zero, Nat.zero_add]
  rw [c00, c01]
  norm_num

/-- The crop mean of the matching window of the fixture. -/
lemma pair_cropMean : cropMeanAt tPair scenePair 0 0 = 0 := by
  show cropSumAt tPair scenePair 0 0 / ((1 * 2 : ℕ) : ℝ) = 0
  rw [pair_cropSum]
  norm_num

/-- The cross-correlation numerator of the fixture window. -/
lemma pair_sumProduct : sumProductAt tPair scenePair 0 0 = 2 := by
  have c00 : cell scenePair 0 0 = 1 := rfl
  have c01 : cell scenePair 0 1 = -1 := rfl
  have k00 : cell tPair.kernel 0 0 = 1 := rfl
  have k01 : cell tPair.kernel 0 1 = -1 := rfl
  show (∑ y ∈ Finset.range 1, ∑ x ∈ Finset.range 2,
    (cell scenePair (0 + y) (0 + x) - cropMeanAt tPair scenePair 0 0) *
      cell tPair.kernel y x) = 2
  simp only [Finset.sum_range_one, Finset.sum_range_succ,
    Finset.sum_range_zero, Nat.add_zero, Nat.zero_add]
  rw [pair_cropMean, c00, c01, k00, k01]
  norm_num

/-- The windowed sum of squares of the fixture window. -/
lemma pair_sumCropSquared : sumCropSquaredAt tPair scenePair 0 0 = 2 := by
  have c00 : cell scenePair 0 0 = 1 := rfl
  have c01 : cell scenePair 0 1 = -1 := rfl
  show (∑ y ∈ Finset.range 1, ∑ x ∈ Finset.range 2,
    (cell scenePair (0 + y) (0 + x) - cropMeanAt tPair scenePair 0 0) *
      (cell scenePair (0 + y) (0 + x) - cropMeanAt tPair scenePair 0 0)) = 2
  simp only [Finset.sum_range_one, Finset.sum_range_succ,
    Finset.sum_range_zero, Nat.add_zero, Nat.zero_add]
  rw [pair_cropMean, c00, c01]
  norm_num

/-- The correlation denominator of the fixture window. -/
lemma pair_denominator : denominatorAt tPair scenePair 0 0 = 2 := by
  show Real.sqrt (sumCropSquaredAt tPair scenePair 0 0 * tPair.sumKernel) = 2
  rw [pair_sumCropSquared, show tPair.sumKernel = 2 from rfl,
    show (2 : ℝ) * 2 = 4 by norm_num]
  exact sqrt_four

/-- The correlation of the fixture window. -/
lemma pair_corr : corrAt tPair scenePair 0 0 = 1 := by
  show sumProductAt tPair scenePair 0 0 / denominatorAt tPair scenePair 0 0 = 1
  rw [pair_sumProduct, pair_denominator]
  norm_num

/-- The single-iteration loop of the fixture. -/
lemma pair_strideList : strideList 1 0 1 = [0] := by
  rw [strideList, strideList]
  norm_num

/-- The complete search output on the fixture. -/
lemma pair_FindMatch :
    FindMatch tPair scenePair 1 0 1 = [emittedMatch tPair scenePair 0 0 1] := by
  have hlen : scenePair.length = 2 := rfl
  have hhead : (scenePair.headD []).length = 3 := rfl
  have hkh : tPair.kernelHeight = 1 := rfl
  have hkw : tPair.kernelWidth = 2 := rfl
  unfold FindMatch
  rw [hlen, hhead, hkh, hkw]
  norm_num [pair_strideList]
  unfold matchesAt
  rw [pair_denominator, pair_corr]
  norm_num

/-- Witness for C9 on the fixture search, whose single match is produced at
window position (0, 0). -/
theorem C9_match_fields_witness :
    emittedMatch tPair scenePair 0 0 1 ∈ FindMatch tPair scenePair 1 0 1 ∧
      ∃ i j, (i, j) ∈ testedPositions tPair scenePair 1 ∧
        0 < denominatorAt tPair scenePair i j ∧
        0 < corrAt tPair scenePair i j ∧
        emittedMatch tPair scenePair 0 0 1 = emittedMatch tPair scenePair i j 1 := by
  have hm : emittedMatch tPair scenePair 0 0 1 ∈ FindMatch tPair scenePair 1 0 1 := by
    rw [pair_FindMatch]
    exact List.mem_singleton_self _
  exact ⟨hm, C9_match_fields tPair scenePair 1 0 1 _ hm⟩

/-- C10: on a rectangular scene and a well-formed template, every grid read
the search performs at any tested window position is in bounds: window rows
`i + y` lie inside the scene, window columns `j + x` inside their row, and
the kernel reads inside the kernel.  In the embedding the search is a total
function, so it terminates by construction; `strideList` models the Go loop
faithfully only for `stride ≥ 1` (for `stride = 0` the Go loop would not
terminate), which is why the precondition is essential. -/
theorem C10_search_inbounds (t : TemplateFromImage) (image : Grid)
    (stride : ℕ) (hstride : 1 ≤ stride)
    (hrect : ∀ row ∈ image, row.length = (image.headD []).length)
    (hkh : t.kernel.length = t.kernelHeight)
    (hkw : ∀ row ∈ t.kernel, row.length = t.kernelWidth) :
    ∀ p ∈ testedPositions t image stride, ∀ y < t.kernelHeight,
      ∀ x < t.kernelWidth,
        (p.1 + y < image.length ∧
          p.2 + x < (image.getD (p.1 + y) []).length) ∧
          y < t.kernel.length ∧ x < (t.kernel.getD y []).length := by
  intro p hp y hy x hx
  obtain ⟨h1, h2⟩ := mem_testedPositions hp
  have hi := lt_of_mem_strideList h1
  have hj := lt_of_mem_strideList h2
  have hrow : p.1 + y < image.length := by omega
  refine ⟨⟨hrow, ?_⟩, by omega, ?_⟩
  · have hmem : image.getD (p.1 + y) [] ∈ image := by
      rw [List.getD_eq_getElem _ _ hrow]
      exact List.getElem_mem hrow
    rw [hrect _ hmem]
    omega
  · have hylen : y < t.kernel.length := by omega
    have hmem2 : t.kernel.getD y [] ∈ t.kernel := by
      rw [List.getD_eq_getElem _ _ hylen]
      exact List.getElem_mem hylen
    rw [hkw _ hmem2]
    omega

/-- Witness for C10: a 2×2 kernel scanned over a 3×3 scene at stride 1. -/
theorem C10_search_inbounds_witness :
    (1 : ℕ) ≤ 1 ∧
      ∀ p ∈ testedPositions tTwo sceneThree 1, ∀ y < tTwo.kernelHeight,
        ∀ x < tTwo.kernelWidth,
          (p.1 + y < sceneThree.length ∧
            p.2 + x < (sceneThree.getD (p.1 + y) []).length) ∧
            y < tTwo.kernel.length ∧ x < (tTwo.kernel.getD y []).length :=
  ⟨le_rfl, C10_search_inbounds tTwo sceneThree 1 le_rfl (by decide) (by decide)
    (by decide)⟩

end

end TriangleOnSonar
